import Mathlib

/-!
Shallow embedding of the Cipherstorm transaction workflow and step-up
authentication (OTP) code, translated from
`app/routers/transaction.py` and `app/services/device_service.py`.

External collaborators (the SQL database, the fraud-scoring pipeline,
the SMTP server, the ipapi.co geolocation endpoint, the random number
generator and the clock) are modelled as explicit inputs: the database
tables become explicit list-valued state threaded through each handler,
the scorer's output `final_prediction` becomes a boolean parameter, an
SMTP attempt becomes an `Except String Unit` value, the generated OTP
code a parameter, and the current instant a `TimeCtx` record.
-/

set_option autoImplicit false

namespace Cipherstorm

/-- Python values stored in the module-level `otp_store` dict: the legacy
`create_and_predict_transaction` endpoint stores the OTP as an `int`
(`random.randint(100000, 999999)`), while `step_up_verify` stores it as a
`str` (`str(random.randint(100000, 999999))`). -/
inductive PyVal where
  | pint (n : Int)
  | pstr (s : String)
  deriving DecidableEq, Repr

/-- Python truthiness (`if not stored_otp`) for an optional dict value:
`None`, `0` and the empty string are falsy. -/
def pyTruthy : Option PyVal → Bool
  | none => false
  | some (.pint n) => n != 0
  | some (.pstr s) => s != ""

/-- Python `==` between a stored dict value and the `otp: str = Form(None)`
argument of `step_up_verify` (`otp_store[email] == otp`): values of
different runtime types compare unequal, and `None` equals no string. -/
def pyEqOptStr : PyVal → Option String → Bool
  | .pstr s, some t => s == t
  | _, _ => false

/-- Python `==` between an optional stored dict value and the
`otp: int = Form(...)` argument of `verify_otp` (`stored_otp != otp`). -/
def pyEqInt : Option PyVal → Int → Bool
  | some (.pint n), m => n == m
  | _, _ => false

/-- The module-level `otp_store = {}` dict.  Keys are the Python values used
at the call sites: `profile.upi_id` (always a string) or the
`email: str = Form(None)` argument, which may be `None`. -/
abbrev OtpStore := List (Option String × PyVal)

/-- Dict lookup `otp_store.get(k)` / `otp_store[k]` (first entry wins;
entries have unique keys, see `otpNoDup`). -/
def otpLookup : OtpStore → Option String → Option PyVal
  | [], _ => none
  | (k, v) :: rest, k0 => if k = k0 then some v else otpLookup rest k0

/-- Dict assignment `otp_store[k] = v`: replaces the value in place when the
key is present, appends a new entry otherwise. -/
def otpInsert : OtpStore → Option String → PyVal → OtpStore
  | [], k, v => [(k, v)]
  | (k0, v0) :: rest, k, v =>
      if k0 = k then (k, v) :: rest else (k0, v0) :: otpInsert rest k v

/-- Dict deletion `del otp_store[k]` (the code only deletes keys it has just
looked up successfully). -/
def otpErase (s : OtpStore) (k : Option String) : OtpStore :=
  s.filter (fun p => p.1 ≠ k)

/-- A Python dict never holds two entries with the same key; this is the
invariant our association-list model maintains. -/
def otpNoDup (s : OtpStore) : Prop :=
  (s.map Prod.fst).Nodup

instance (s : OtpStore) : Decidable (otpNoDup s) :=
  inferInstanceAs (Decidable (s.map Prod.fst).Nodup)

/-- Modelled from the spec: `cancel(key) -> void`, idempotent removal of a
challenge.  No cancel endpoint exists in the repository source; the spec
(section 4.2) defines it as idempotent removal from the ChallengeStore. -/
def cancel (s : OtpStore) (k : Option String) : OtpStore :=
  otpErase s k

/-! ### device_service.py -/

/-- The JSON body returned by `https://ipapi.co/json/`; each field is
optional because the code reads it with `data.get(..., default)`. -/
structure IpApiData where
  ip : Option String
  country_name : Option String
  city : Option String
  latitude : Option Rat
  longitude : Option Rat
  deriving DecidableEq, Repr

/-- The `location_data` dict built by `get_ip_and_location_data`. -/
structure LocationData where
  country : String
  city : String
  latitude : Option Rat
  longitude : Option Rat
  deriving DecidableEq, Repr

/-- Embedding of `get_ip_and_location_data`.  The outcome of the
`requests.get("https://ipapi.co/json/", timeout=5)` call (including JSON
decoding) is an explicit argument: `.error` covers every raised exception
(`requests.RequestException` and the blanket `except Exception`), both of
which return the sentinel loopback IP and Unknown location. -/
def get_ip_and_location_data (response : Except String IpApiData) :
    String × LocationData :=
  match response with
  | .ok data =>
      (data.ip.getD "127.0.0.1",
       { country := data.country_name.getD "Unknown"
         city := data.city.getD "Unknown"
         latitude := data.latitude
         longitude := data.longitude })
  | .error _ =>
      ("127.0.0.1",
       { country := "Unknown", city := "Unknown"
         latitude := none, longitude := none })

/-- The parts of the incoming HTTP request read by the device service:
`request.cookies.get("device_id")` and `request.headers.get("X-Device-ID")`. -/
structure RequestCtx where
  cookie_device_id : Option String
  header_x_device_id : Option String
  deriving DecidableEq, Repr

/-- Python truthiness of `cookies.get(...)` / `headers.get(...)`:
`None` and the empty string are falsy (`if not device_id`). -/
def pyStrTruthy (o : Option String) : Option String :=
  match o with
  | some s => if s = "" then none else some s
  | none => none

/-- Embedding of `get_device_id_from_request`: cookie first, then the
`X-Device-ID` header, then the `"unknown_device"` sentinel. -/
def get_device_id_from_request (req : RequestCtx) : String :=
  match pyStrTruthy req.cookie_device_id with
  | some d => d
  | none =>
      match pyStrTruthy req.header_x_device_id with
      | some d => d
      | none => "unknown_device"

/-- The dict returned by `calculate_derived_columns`. -/
structure DerivedData where
  device_id : String
  ip_address : String
  country : String
  city : String
  latitude : Option Rat
  longitude : Option Rat
  initiation_mode : String
  deriving DecidableEq, Repr

/-- Embedding of `calculate_derived_columns`: device id from the request,
IP/location from the single external lookup, `initiation_mode` always
`"Default"`. -/
def calculate_derived_columns (req : RequestCtx)
    (response : Except String IpApiData) : DerivedData :=
  let device_id := get_device_id_from_request req
  let (ip_address, location_data) := get_ip_and_location_data response
  { device_id := device_id
    ip_address := ip_address
    country := location_data.country
    city := location_data.city
    latitude := location_data.latitude
    longitude := location_data.longitude
    initiation_mode := "Default" }

/-! ### Data model (app/models) -/

/-- The fields of `Profile` read by the transaction router. -/
structure Profile where
  user_id : String
  upi_id : String
  email : String
  deriving DecidableEq, Repr

/-- The current instant, as consumed by the handlers
(`now.weekday()`, `now.hour`, `now.minute`, plus an opaque timestamp for
`created_at` ordering). -/
structure TimeCtx where
  weekday : Nat
  hour : Nat
  minute : Nat
  stamp : Nat
  deriving DecidableEq, Repr

/-- The persisted `Transaction` row, with exactly the columns the router
writes.  `is_fraud` is tri-state: `none` until the fraud verdict is set. -/
structure Transaction where
  transaction_id : String
  user_id : String
  amount : Rat
  transaction_type : String
  payment_instrument : String
  payer_vpa : String
  beneficiary_vpa : String
  initiation_mode : String
  device_id : String
  ip_address : String
  latitude : Option Rat
  longitude : Option Rat
  country : String
  city : String
  day_of_week : Nat
  hour : Nat
  minute : Nat
  is_night : Bool
  created_at : Nat
  is_fraud : Option Bool
  deriving DecidableEq, Repr

/-- The durable `transactions` table. -/
abbrev TxnStore := List Transaction

/-- Python truthiness of a nullable numeric column
(`last_txn.latitude and last_txn.longitude`): `None` and `0` are falsy. -/
def pyRatTruthy : Option Rat → Bool
  | none => false
  | some r => r != 0

/-- The most recent prior transaction of a user
(`.order_by(Transaction.created_at.desc()).first()`). -/
def lastTxn (txns : TxnStore) (uid : String) : Option Transaction :=
  (txns.filter (fun t => t.user_id = uid)).foldl
    (fun acc t =>
      match acc with
      | none => some t
      | some a => if a.created_at < t.created_at then some t else some a)
    none

/-- The `last_transaction_location` dict: present only when the last
transaction exists and has truthy latitude and longitude. -/
def lastTransactionLocation (txns : TxnStore) (uid : String) :
    Option (Rat × Rat) :=
  match lastTxn txns uid with
  | none => none
  | some t =>
      if pyRatTruthy t.latitude && pyRatTruthy t.longitude then
        match t.latitude, t.longitude with
        | some la, some lo => some (la, lo)
        | _, _ => none
      else none

/-- `db.query(Transaction).filter(Transaction.user_id == uid).count()`. -/
def txnCount (txns : TxnStore) (uid : String) : Nat :=
  (txns.filter (fun t => t.user_id = uid)).length

/-- Setting `new_txn.is_fraud = ...` on a row already committed to the
table, followed by `db.commit()`. -/
def setIsFraud (txns : TxnStore) (tid : String) (b : Bool) : TxnStore :=
  txns.map (fun t =>
    if t.transaction_id = tid then { t with is_fraud := some b } else t)

/-- The `Transaction(...)` constructor call shared verbatim by
`create_and_predict_transaction` and `process_transaction`: both build the
row from the same inputs with `is_night = now.hour < 6 or now.hour > 22`
and `is_fraud` still unset. -/
def buildTxn (p : Profile) (amount : Rat)
    (transaction_type payment_method recipient_upi_id : String)
    (derived_data : DerivedData) (now : TimeCtx) (txnId : String) :
    Transaction :=
  { transaction_id := txnId
    user_id := p.user_id
    amount := amount
    transaction_type := transaction_type
    payment_instrument := payment_method
    payer_vpa := p.upi_id
    beneficiary_vpa := recipient_upi_id
    initiation_mode := derived_data.initiation_mode
    device_id := derived_data.device_id
    ip_address := derived_data.ip_address
    latitude := derived_data.latitude
    longitude := derived_data.longitude
    country := derived_data.country
    city := derived_data.city
    day_of_week := now.weekday
    hour := now.hour
    minute := now.minute
    is_night := now.hour < 6 || now.hour > 22
    created_at := now.stamp
    is_fraud := none }

/-! ### POST /transaction/ (create_and_predict_transaction) -/

/-- The responses the legacy endpoint can produce without raising:
the 404 for a missing profile, the fraud-detected OTP message, or the
fraud-pipeline result dict returned directly when no OTP is sent. -/
inductive CreateResponse where
  | profileNotFound
  | fraudOtpSent
  | prediction (final_prediction : Bool)
  deriving DecidableEq, Repr

instance {ε α : Type} [DecidableEq ε] [DecidableEq α] :
    DecidableEq (Except ε α) := fun x y =>
  match x, y with
  | .ok a, .ok b =>
      if h : a = b then .isTrue (by rw [h]) else .isFalse (by simp [h])
  | .error a, .error b =>
      if h : a = b then .isTrue (by rw [h]) else .isFalse (by simp [h])
  | .ok _, .error _ => .isFalse (by simp)
  | .error _, .ok _ => .isFalse (by simp)

/-- Result of `create_and_predict_transaction`: the HTTP outcome (an
`Except.error` models an exception escaping the handler — the function has
no try/except) together with the database and OTP-store state left behind
(rows committed before a raise stay committed). -/
structure CreateResult where
  response : Except String CreateResponse
  txns : TxnStore
  otps : OtpStore
  deriving DecidableEq, Repr

/-- Embedding of `create_and_predict_transaction`.  `txnId` stands for
`str(uuid4())`, `final_prediction` for `bool(result["final_prediction"])`
of the fraud pipeline, `otpCode` for `random.randint(100000, 999999)` and
`smtp` for the outcome of the inline `smtplib` block (which is not wrapped
in try/except, so an error propagates).  Note the transaction row is
committed before the fraud pipeline runs, and its `is_fraud` flag is then
updated in place. -/
def create_and_predict_transaction (profile : Option Profile)
    (amount : Rat) (transaction_type payment_method recipient_upi_id : String)
    (req : RequestCtx) (geo : Except String IpApiData) (now : TimeCtx)
    (txnId : String) (final_prediction : Bool) (otpCode : Int)
    (smtp : Except String Unit) (txns : TxnStore) (otps : OtpStore) :
    CreateResult :=
  match profile with
  | none => ⟨.ok .profileNotFound, txns, otps⟩
  | some p =>
      let derived_data := calculate_derived_columns req geo
      let new_txn : Transaction :=
        buildTxn p amount transaction_type payment_method recipient_upi_id
          derived_data now txnId
      let txns1 := txns ++ [new_txn]
      let txns2 := setIsFraud txns1 txnId final_prediction
      if final_prediction then
        let otps1 := otpInsert otps (some p.upi_id) (.pint otpCode)
        match smtp with
        | .ok _ => ⟨.ok .fraudOtpSent, txns2, otps1⟩
        | .error e => ⟨.error e, txns2, otps1⟩
      else
        ⟨.ok (.prediction final_prediction), txns2, otps⟩

/-! ### POST /transaction/verify_otp -/

/-- Responses of the legacy `verify_otp` endpoint. -/
inductive VerifyOtpResponse where
  | profileNotFound
  | invalidOrExpired
  | approved
  deriving DecidableEq, Repr

/-- Embedding of `verify_otp`: looks up `otp_store.get(profile.upi_id)`,
rejects when the stored value is falsy or differs from the submitted
integer, and deletes the entry on success. -/
def verify_otp (profile : Option Profile) (otp : Int) (otps : OtpStore) :
    VerifyOtpResponse × OtpStore :=
  match profile with
  | none => (.profileNotFound, otps)
  | some p =>
      let stored_otp := otpLookup otps (some p.upi_id)
      if !pyTruthy stored_otp || !pyEqInt stored_otp otp then
        (.invalidOrExpired, otps)
      else
        (.approved, otpErase otps (some p.upi_id))

/-! ### DELETE /transaction/{txn_id} -/

/-- Responses of `delete_transaction`. -/
inductive DeleteResponse where
  | notFound
  | deleted
  deriving DecidableEq, Repr

/-- Embedding of `delete_transaction`: primary-key lookup, 404 when absent,
otherwise delete the row and report success.  `current_user` is received
(the route requires authentication) but never consulted. -/
def delete_transaction (txn_id : String) (current_user : String)
    (txns : TxnStore) : DeleteResponse × TxnStore :=
  match txns.find? (fun t => t.transaction_id = txn_id) with
  | none => (.notFound, txns)
  | some _ => (.deleted, txns.filter (fun t => t.transaction_id ≠ txn_id))

/-! ### POST /transaction/process -/

/-- The `transaction_data` dict prepared for the templates. -/
structure TransactionData where
  transaction_id : String
  amount : Rat
  transaction_type : String
  payment_method : String
  to_account : String
  timestamp : Nat
  from_account : String
  deriving DecidableEq, Repr

/-- The `temp_txn_data` sub-dict serialized into `transaction_json` for the
step-up page, carrying everything needed to replay the candidate. -/
structure TempTxnData where
  amount : Rat
  transaction_type : String
  payment_method : String
  recipient_upi_id : String
  derived_data : DerivedData
  txn_count : Nat
  last_transaction_location : Option (Rat × Rat)
  deriving DecidableEq, Repr

/-- The serialized `transaction_json` payload. -/
structure TransactionJson where
  data : TransactionData
  temp_txn_data : TempTxnData
  deriving DecidableEq, Repr

/-- Responses of `process_transaction`: the 500 error page produced by the
blanket `except` (which also swallows the 404 HTTPException), the step-up
page carrying the serialized candidate, or the success page. -/
inductive ProcessResponse where
  | errorPage (detail : String)
  | stepUpPage (user : String) (fraud_details : Bool)
      (transaction_json : TransactionJson) (user_email : Option String)
  | resultsPage (user : String) (transaction_data : TransactionData)
      (fraud_report : Bool)
  deriving DecidableEq, Repr

/-- Embedding of `process_transaction`.  On a fraud verdict the candidate is
NOT saved: only the serialized payload is handed to the step-up template.
On a clean verdict the candidate is committed with `is_fraud = False`. -/
def process_transaction (current_user : String) (profile : Option Profile)
    (user_email : Option String) (amount : Rat)
    (transaction_type payment_method recipient_upi_id : String)
    (req : RequestCtx) (geo : Except String IpApiData) (now : TimeCtx)
    (txnId : String) (final_prediction : Bool) (txns : TxnStore) :
    ProcessResponse × TxnStore :=
  match profile with
  | none => (.errorPage "User profile not found", txns)
  | some p =>
      let derived_data := calculate_derived_columns req geo
      let last_transaction_location := lastTransactionLocation txns p.user_id
      let temp_txn : Transaction :=
        buildTxn p amount transaction_type payment_method recipient_upi_id
          derived_data now txnId
      let txn_count := txnCount txns p.user_id
      let transaction_data : TransactionData :=
        { transaction_id := txnId
          amount := amount
          transaction_type := transaction_type
          payment_method := payment_method
          to_account := recipient_upi_id
          timestamp := now.stamp
          from_account := p.upi_id }
      if final_prediction then
        let transaction_json : TransactionJson :=
          { data := transaction_data
            temp_txn_data :=
              { amount := amount
                transaction_type := transaction_type
                payment_method := payment_method
                recipient_upi_id := recipient_upi_id
                derived_data := derived_data
                txn_count := txn_count
                last_transaction_location := last_transaction_location } }
        (.stepUpPage current_user final_prediction transaction_json user_email,
         txns)
      else
        let saved := { temp_txn with is_fraud := some false }
        (.resultsPage current_user transaction_data final_prediction,
         txns ++ [saved])

/-! ### POST /transaction/auth/step-up-verify -/

/-- A success or error banner rendered into `step_up.html`. -/
inductive Banner where
  | success (msg : String)
  | error (msg : String)
  deriving DecidableEq, Repr

/-- Responses of `step_up_verify`: the step-up page (with the `otp_sent`
flag, the echoed email and transaction payload, and a banner), the
identity-verified page, or `None` when the action matches no branch. -/
inductive StepUpResponse where
  | stepUpPage (user : String) (otp_sent : Bool) (user_email : Option String)
      (transaction_data : Option String) (banner : Banner)
  | identityVerified (user : String)
  | noResponse
  deriving DecidableEq, Repr

/-- Embedding of `send_otp_email`: every exception of the smtplib block is
caught and turned into `False`; a successful send (or the development
fallback when no SMTP server is configured) yields `True`. -/
def send_otp_email (smtp : Except String Unit) : Bool :=
  match smtp with
  | .ok _ => true
  | .error _ => false

/-- Embedding of `step_up_verify`.  `action`, `email`, `otp` and
`transaction_data` are the form fields (the last three default to `None`);
`newCode` stands for `str(random.randint(100000, 999999))` and `smtp` for
the SMTP outcome inside `send_otp_email`.  The OTP store is keyed by the
caller-supplied `email` field; `current_user` is only echoed into the
rendered template. -/
def step_up_verify (current_user : String) (action : String)
    (email : Option String) (otp : Option String)
    (transaction_data : Option String) (newCode : String)
    (smtp : Except String Unit) (otps : OtpStore) :
    StepUpResponse × OtpStore :=
  if action = "send_otp" then
    let otps1 := otpInsert otps email (.pstr newCode)
    if send_otp_email smtp then
      (.stepUpPage current_user true email transaction_data
        (.success "OTP sent successfully to your email!"), otps1)
    else
      (.stepUpPage current_user false email transaction_data
        (.error "Failed to send OTP. Please try again."), otps1)
  else if action = "verify_otp" then
    match otpLookup otps email with
    | some v =>
        if pyEqOptStr v otp then
          (.identityVerified current_user, otpErase otps email)
        else
          (.stepUpPage current_user true email transaction_data
            (.error "Invalid OTP. Please try again."), otps)
    | none =>
        (.stepUpPage current_user true email transaction_data
          (.error "Invalid OTP. Please try again."), otps)
  else if action = "resend_otp" then
    let otps1 := otpInsert otps email (.pstr newCode)
    let msg :=
      if send_otp_email smtp then "OTP resent successfully!"
      else "Failed to resend OTP."
    (.stepUpPage current_user true email transaction_data (.success msg),
     otps1)
  else
    (.noResponse, otps)

/-- The shape of a `step_up_verify` response with the echoed
`current_user` erased: which template was rendered, with which
`otp_sent` flag, echoed email, payload and banner. -/
inductive StepUpKind where
  | page (otp_sent : Bool) (user_email : Option String)
      (transaction_data : Option String) (banner : Banner)
  | verified
  | nothing
  deriving DecidableEq, Repr

/-- Project a `step_up_verify` response onto everything except the
authenticated user echoed into the template. -/
def stepUpKind : StepUpResponse → StepUpKind
  | .stepUpPage _ o e t b => .page o e t b
  | .identityVerified _ => .verified
  | .noResponse => .nothing

/-! ### Helper lemmas about the OTP store -/

theorem otpLookup_insert_self (s : OtpStore) (k : Option String) (v : PyVal) :
    otpLookup (otpInsert s k v) k = some v := by
  induction s with
  | nil => simp [otpInsert, otpLookup]
  | cons p rest ih =>
      obtain ⟨k0, v0⟩ := p
      by_cases h : k0 = k
      · simp [otpInsert, h, otpLookup]
      · simp [otpInsert, h, otpLookup, ih]

theorem otpLookup_erase_self (s : OtpStore) (k : Option String) :
    otpLookup (otpErase s k) k = none := by
  induction s with
  | nil => rfl
  | cons p rest ih =>
      obtain ⟨k0, v0⟩ := p
      by_cases h : k0 = k
      · simpa [otpErase, List.filter_cons, h] using ih
      · simpa [otpErase, List.filter_cons, h, otpLookup] using ih

theorem mem_keys_otpInsert (s : OtpStore) (k a : Option String) (v : PyVal)
    (ha : a ∈ (otpInsert s k v).map Prod.fst) :
    a ∈ s.map Prod.fst ∨ a = k := by
  induction s with
  | nil => simpa [otpInsert] using ha
  | cons p rest ih =>
      obtain ⟨k0, v0⟩ := p
      by_cases h : k0 = k
      · rw [otpInsert, if_pos h] at ha
        simp only [List.map_cons, List.mem_cons] at ha ⊢
        rcases ha with ha | ha
        · exact Or.inr ha
        · exact Or.inl (Or.inr ha)
      · rw [otpInsert, if_neg h] at ha
        simp only [List.map_cons, List.mem_cons] at ha ⊢
        rcases ha with ha | ha
        · exact Or.inl (Or.inl ha)
        · rcases ih ha with h1 | h1
          · exact Or.inl (Or.inr h1)
          · exact Or.inr h1

theorem otpNoDup_insert (s : OtpStore) (k : Option String) (v : PyVal)
    (h : otpNoDup s) : otpNoDup (otpInsert s k v) := by
  induction s with
  | nil => simp [otpNoDup, otpInsert]
  | cons p rest ih =>
      obtain ⟨k0, v0⟩ := p
      rw [otpNoDup, List.map_cons, List.nodup_cons] at h
      by_cases hk : k0 = k
      · rw [otpNoDup, otpInsert, if_pos hk, List.map_cons, List.nodup_cons]
        exact ⟨by simpa [hk] using h.1, h.2⟩
      · rw [otpNoDup, otpInsert, if_neg hk, List.map_cons, List.nodup_cons]
        refine ⟨fun hmem => ?_, ih h.2⟩
        rcases mem_keys_otpInsert rest k k0 v hmem with h1 | h1
        · exact h.1 h1
        · exact hk h1

theorem otpNoDup_erase (s : OtpStore) (k : Option String) (h : otpNoDup s) :
    otpNoDup (otpErase s k) :=
  List.Nodup.sublist (List.Sublist.map Prod.fst (List.filter_sublist s)) h

/-- The `action == "verify_otp"` branch of `step_up_verify`, written out. -/
theorem step_up_verify_verify_eq (u : String) (email otp td : Option String)
    (nc : String) (smtp : Except String Unit) (s : OtpStore) :
    step_up_verify u "verify_otp" email otp td nc smtp s =
      match otpLookup s email with
      | some v =>
          if pyEqOptStr v otp then
            (.identityVerified u, otpErase s email)
          else
            (.stepUpPage u true email td
              (.error "Invalid OTP. Please try again."), s)
      | none =>
          (.stepUpPage u true email td
            (.error "Invalid OTP. Please try again."), s) := by
  rfl

/-- Flagging the freshly appended row touches no earlier row when the new
transaction id is fresh (the code draws it from `uuid4()`). -/
theorem setIsFraud_append_fresh (txns : TxnStore) (t0 : Transaction) (b : Bool)
    (hfresh : ∀ t ∈ txns, t.transaction_id ≠ t0.transaction_id) :
    setIsFraud (txns ++ [t0]) t0.transaction_id b
      = txns ++ [{ t0 with is_fraud := some b }] := by
  rw [setIsFraud, List.map_append]
  have h1 : txns.map (fun t =>
      if t.transaction_id = t0.transaction_id then { t with is_fraud := some b }
      else t) = txns := by
    induction txns with
    | nil => rfl
    | cons a l ih =>
        rw [List.map_cons, if_neg (hfresh a (List.mem_cons_self a l)),
          ih (fun t ht => hfresh t (List.mem_cons_of_mem a ht))]
  rw [h1]
  simp

/-- Every action of `step_up_verify` leaves the OTP store a well-formed
dict (unique keys). -/
theorem otpNoDup_step_up_verify (u action : String)
    (email otp td : Option String) (nc : String) (smtp : Except String Unit)
    (s : OtpStore) (h : otpNoDup s) :
    otpNoDup (step_up_verify u action email otp td nc smtp s).2 := by
  unfold step_up_verify
  by_cases h1 : action = "send_otp"
  · rw [if_pos h1]
    by_cases h2 : send_otp_email smtp = true
    · rw [if_pos h2]
      exact otpNoDup_insert s email _ h
    · rw [if_neg h2]
      exact otpNoDup_insert s email _ h
  · rw [if_neg h1]
    by_cases h3 : action = "verify_otp"
    · rw [if_pos h3]
      cases hl : otpLookup s email with
      | none => simpa [hl] using h
      | some v =>
          by_cases he : pyEqOptStr v otp = true
          · simpa [hl, he] using otpNoDup_erase s email h
          · simpa [hl, he] using h
    · rw [if_neg h3]
      by_cases h4 : action = "resend_otp"
      · rw [if_pos h4]
        exact otpNoDup_insert s email _ h
      · rw [if_neg h4]
        exact h

/-- The legacy `verify_otp` endpoint leaves the OTP store a well-formed
dict (unique keys). -/
theorem otpNoDup_verify_otp (pr : Option Profile) (i : Int) (s : OtpStore)
    (h : otpNoDup s) : otpNoDup (verify_otp pr i s).2 := by
  unfold verify_otp
  cases pr with
  | none => exact h
  | some p =>
      by_cases hc : (!pyTruthy (otpLookup s (some p.upi_id))
          || !pyEqInt (otpLookup s (some p.upi_id)) i) = true
      · simpa [hc] using h
      · simpa [hc] using otpNoDup_erase s (some p.upi_id) h

/-! ### Claim theorems -/

/-- C1: the claim says that for a fraud-suspected submission no Transaction
is persisted until step-up verification succeeds, and that exactly one
Transaction (fraud flag true, fields identical to the scored candidate) is
persisted after it.  The code violates the second half on the
`process_transaction` path and the first half on the legacy
`create_and_predict_transaction` path.  This theorem evaluates the code at
the failing input: (1) a fraud-verdict submission via `/process` leaves the
transaction table empty, (2) a subsequent successful step-up verification
returns the identity-verified page while touching only the OTP store —
`step_up_verify` does not write transactions at all, so the table stays
empty after verification — and (3) the legacy endpoint commits a
Transaction with fraud flag true before any verification takes place. -/
theorem fraud_flow_never_persists_after_verification :
    (process_transaction "alice" (some ⟨"u1", "alice@upi", "a@mail"⟩)
        (some "a@mail") 50000 "P2P" "UPI" "bob@upi" ⟨none, none⟩
        (.error "timeout") ⟨3, 23, 15, 1000⟩ "t1" true []).2 = [] ∧
    (let s1 := (step_up_verify "alice" "send_otp" (some "a@mail") none
        (some "payload") "654321" (.ok ()) []).2
     step_up_verify "alice" "verify_otp" (some "a@mail") (some "654321")
        (some "payload") "999999" (.ok ()) s1
       = (.identityVerified "alice", [])) ∧
    (create_and_predict_transaction (some ⟨"u1", "alice@upi", "a@mail"⟩)
        50000 "P2P" "UPI" "bob@upi" ⟨none, none⟩ (.error "timeout")
        ⟨3, 23, 15, 1000⟩ "t1" true 123456 (.ok ()) [] []).txns.map
        (fun t => t.is_fraud) = [some true] := by
  refine ⟨rfl, ?_, rfl⟩
  decide

/-- C2: the claim says a code supplied strictly after the expiry instant of
its challenge returns `expired`, never `ok`, and the entry is purged.  The
code records no issuance or expiry instant at all — `otp_store` maps a key
to a bare code — and verification succeeds with a matching code however
much time has passed.  Evaluated on a matching challenge, both verification
endpoints return their success outcome (there is no elapsed-time input to
either, and no `expired` outcome in either response type). -/
theorem verify_has_no_expiry :
    (step_up_verify "alice" "verify_otp" (some "a@mail") (some "123456") none
        "" (.ok ()) [(some "a@mail", .pstr "123456")]).1
      = .identityVerified "alice" ∧
    (verify_otp (some ⟨"u1", "alice@upi", "a@mail"⟩) 222333
        [(some "alice@upi", .pint 222333)]).1 = .approved := by
  exact ⟨rfl, rfl⟩

/-- C3: the claim says each mismatching attempt increments an attempt
counter and after a small fixed bound (e.g. 5) the challenge is invalidated
so that no longer sequence of wrong guesses can end in success.  The code
keeps no attempt counter: this theorem evaluates six consecutive wrong
attempts — each returning the invalid-OTP page and leaving the store
unchanged — after which the correct code still verifies successfully. -/
theorem six_wrong_attempts_then_success :
    (let s : OtpStore := [(some "a@mail", .pstr "999999")]
     let wrong := fun st => (step_up_verify "alice" "verify_otp"
        (some "a@mail") (some "000000") none "" (.ok ()) st).2
     let s6 := wrong (wrong (wrong (wrong (wrong (wrong s)))))
     (step_up_verify "alice" "verify_otp" (some "a@mail") (some "000000")
        none "" (.ok ()) s).1
       = .stepUpPage "alice" true (some "a@mail") none
           (.error "Invalid OTP. Please try again.") ∧
     s6 = s ∧
     (step_up_verify "alice" "verify_otp" (some "a@mail") (some "999999")
        none "" (.ok ()) s6).1 = .identityVerified "alice") := by
  decide

/-- C7: enrichment never propagates a failure — `get_ip_and_location_data`
and `calculate_derived_columns` are total functions of the lookup outcome —
and on any lookup failure the sentinels `"127.0.0.1"` and `"Unknown"` with
null coordinates are returned; when neither the `device_id` cookie nor the
`X-Device-ID` header is present the device id is `"unknown_device"`. -/
theorem enrichment_sentinel_fallbacks (req : RequestCtx) (err : String)
    (hc : req.cookie_device_id = none) (hh : req.header_x_device_id = none) :
    get_ip_and_location_data (.error err)
      = ("127.0.0.1",
         { country := "Unknown", city := "Unknown"
           latitude := none, longitude := none }) ∧
    get_device_id_from_request req = "unknown_device" ∧
    calculate_derived_columns req (.error err)
      = { device_id := "unknown_device", ip_address := "127.0.0.1"
          country := "Unknown", city := "Unknown"
          latitude := none, longitude := none
          initiation_mode := "Default" } := by
  refine ⟨rfl, ?_, ?_⟩
  · rw [get_device_id_from_request, hc, hh]
    rfl
  · rw [calculate_derived_columns, get_device_id_from_request, hc, hh]
    rfl

/-- Witness for C7 at a concrete request with no cookie and no header. -/
theorem enrichment_sentinel_fallbacks_witness :
    get_ip_and_location_data (.error "timeout")
      = ("127.0.0.1",
         { country := "Unknown", city := "Unknown"
           latitude := none, longitude := none }) ∧
    get_device_id_from_request ⟨none, none⟩ = "unknown_device" ∧
    calculate_derived_columns ⟨none, none⟩ (.error "timeout")
      = { device_id := "unknown_device", ip_address := "127.0.0.1"
          country := "Unknown", city := "Unknown"
          latitude := none, longitude := none
          initiation_mode := "Default" } :=
  enrichment_sentinel_fallbacks ⟨none, none⟩ "timeout" rfl rfl

/-- C4: for every valid submission whose verdict is `not fraud`, exactly one
Transaction is appended to the table, its fraud flag is false, and its
monetary fields (amount, payer and beneficiary identifiers) match the
input; the response carries the same data.  Proven on the `/process` path
and on the legacy `POST /transaction/` path, the latter under freshness of
the uuid4-generated transaction id. -/
theorem not_fraud_persists_exactly_one (current_user : String) (p : Profile)
    (user_email : Option String) (amount : Rat)
    (ttype pmethod recipient : String) (req : RequestCtx)
    (geo : Except String IpApiData) (now : TimeCtx) (txnId : String)
    (otpCode : Int) (smtp : Except String Unit) (txns : TxnStore)
    (otps : OtpStore)
    (hfresh : ∀ t ∈ txns, t.transaction_id ≠ txnId) :
    (∃ t : Transaction,
      (process_transaction current_user (some p) user_email amount ttype
          pmethod recipient req geo now txnId false txns).2 = txns ++ [t] ∧
      t.is_fraud = some false ∧ t.amount = amount ∧
      t.beneficiary_vpa = recipient ∧ t.payer_vpa = p.upi_id ∧
      (process_transaction current_user (some p) user_email amount ttype
          pmethod recipient req geo now txnId false txns).1
        = .resultsPage current_user
            { transaction_id := txnId, amount := amount
              transaction_type := ttype, payment_method := pmethod
              to_account := recipient, timestamp := now.stamp
              from_account := p.upi_id } false) ∧
    (∃ t : Transaction,
      (create_and_predict_transaction (some p) amount ttype pmethod recipient
          req geo now txnId false otpCode smtp txns otps).txns
        = txns ++ [t] ∧
      t.is_fraud = some false ∧ t.amount = amount ∧
      t.beneficiary_vpa = recipient ∧ t.payer_vpa = p.upi_id ∧
      (create_and_predict_transaction (some p) amount ttype pmethod recipient
          req geo now txnId false otpCode smtp txns otps).response
        = .ok (.prediction false)) := by
  constructor
  · exact ⟨{ buildTxn p amount ttype pmethod recipient
        (calculate_derived_columns req geo) now txnId with
          is_fraud := some false }, rfl, rfl, rfl, rfl, rfl, rfl⟩
  · refine ⟨{ buildTxn p amount ttype pmethod recipient
        (calculate_derived_columns req geo) now txnId with
          is_fraud := some false }, ?_, rfl, rfl, rfl, rfl, rfl⟩
    exact setIsFraud_append_fresh txns
      (buildTxn p amount ttype pmethod recipient
        (calculate_derived_columns req geo) now txnId) false hfresh

/-- Witness for C4 at a concrete profile, input and empty table. -/
theorem not_fraud_persists_exactly_one_witness :
    (∀ t ∈ ([] : TxnStore), t.transaction_id ≠ "t1") ∧
    ((∃ t : Transaction,
      (process_transaction "alice" (some ⟨"u1", "alice@upi", "a@mail"⟩)
          (some "a@mail") 50000 "P2P" "UPI" "bob@upi" ⟨none, none⟩
          (.error "timeout") ⟨3, 23, 15, 1000⟩ "t1" false []).2 = [] ++ [t] ∧
      t.is_fraud = some false ∧ t.amount = 50000 ∧
      t.beneficiary_vpa = "bob@upi" ∧ t.payer_vpa = "alice@upi" ∧
      (process_transaction "alice" (some ⟨"u1", "alice@upi", "a@mail"⟩)
          (some "a@mail") 50000 "P2P" "UPI" "bob@upi" ⟨none, none⟩
          (.error "timeout") ⟨3, 23, 15, 1000⟩ "t1" false []).1
        = .resultsPage "alice"
            { transaction_id := "t1", amount := 50000
              transaction_type := "P2P", payment_method := "UPI"
              to_account := "bob@upi", timestamp := 1000
              from_account := "alice@upi" } false) ∧
    (∃ t : Transaction,
      (create_and_predict_transaction (some ⟨"u1", "alice@upi", "a@mail"⟩)
          50000 "P2P" "UPI" "bob@upi" ⟨none, none⟩ (.error "timeout")
          ⟨3, 23, 15, 1000⟩ "t1" false 123456 (.ok ()) [] []).txns
        = [] ++ [t] ∧
      t.is_fraud = some false ∧ t.amount = 50000 ∧
      t.beneficiary_vpa = "bob@upi" ∧ t.payer_vpa = "alice@upi" ∧
      (create_and_predict_transaction (some ⟨"u1", "alice@upi", "a@mail"⟩)
          50000 "P2P" "UPI" "bob@upi" ⟨none, none⟩ (.error "timeout")
          ⟨3, 23, 15, 1000⟩ "t1" false 123456 (.ok ()) [] []).response
        = .ok (.prediction false))) :=
  ⟨by simp,
   not_fraud_persists_exactly_one "alice" ⟨"u1", "alice@upi", "a@mail"⟩
     (some "a@mail") 50000 "P2P" "UPI" "bob@upi" ⟨none, none⟩
     (.error "timeout") ⟨3, 23, 15, 1000⟩ "t1" 123456 (.ok ()) [] []
     (by simp)⟩

/-- C5: issuing a code for a key overwrites any previous entry for that key
(dict assignment), a superseded code distinct from the current one can no
longer verify, and the at-most-one-challenge-per-key invariant (unique dict
keys) is preserved by issue (`send_otp`), resend, both verify endpoints and
the spec-modelled `cancel`. -/
theorem issue_supersedes_previous_code (s : OtpStore) (k : Option String)
    (v : PyVal) (u action nc nc2 : String) (email otp td : Option String)
    (c1 c2 : String) (smtp : Except String Unit) (pr : Option Profile)
    (i : Int) (hne : c1 ≠ c2) (hnd : otpNoDup s) :
    otpLookup (otpInsert s k v) k = some v ∧
    (step_up_verify u "verify_otp" email (some c1) td nc2 smtp
        (otpInsert s email (.pstr c2))).1 ≠ .identityVerified u ∧
    otpNoDup (otpInsert s k v) ∧
    otpNoDup (otpErase s k) ∧
    otpNoDup (cancel s k) ∧
    otpNoDup (step_up_verify u action email otp td nc smtp s).2 ∧
    otpNoDup (verify_otp pr i s).2 := by
  refine ⟨otpLookup_insert_self s k v, ?_, otpNoDup_insert s k v hnd,
    otpNoDup_erase s k hnd, otpNoDup_erase s k hnd,
    otpNoDup_step_up_verify u action email otp td nc smtp s hnd,
    otpNoDup_verify_otp pr i s hnd⟩
  rw [step_up_verify_verify_eq, otpLookup_insert_self]
  have he : pyEqOptStr (.pstr c2) (some c1) = false := by
    simp [pyEqOptStr]
    exact fun hc => hne hc.symm
  simp [he]

/-- Witness for C5 at a concrete store, key and pair of distinct codes. -/
theorem issue_supersedes_previous_code_witness :
    ("111111" ≠ ("222222" : String)) ∧
    otpNoDup [(some "a@mail", PyVal.pstr "111111")] ∧
    (otpLookup (otpInsert [(some "a@mail", PyVal.pstr "111111")]
        (some "a@mail") (.pstr "222222")) (some "a@mail")
      = some (.pstr "222222") ∧
    (step_up_verify "alice" "verify_otp" (some "a@mail") (some "111111") none
        "999999" (.ok ())
        (otpInsert [(some "a@mail", PyVal.pstr "111111")] (some "a@mail")
          (.pstr "222222"))).1 ≠ .identityVerified "alice" ∧
    otpNoDup (otpInsert [(some "a@mail", PyVal.pstr "111111")]
        (some "a@mail") (.pstr "222222")) ∧
    otpNoDup (otpErase [(some "a@mail", PyVal.pstr "111111")]
        (some "a@mail")) ∧
    otpNoDup (cancel [(some "a@mail", PyVal.pstr "111111")] (some "a@mail")) ∧
    otpNoDup (step_up_verify "alice" "send_otp" (some "a@mail") none none
        "888888" (.ok ()) [(some "a@mail", PyVal.pstr "111111")]).2 ∧
    otpNoDup (verify_otp (some ⟨"u1", "alice@upi", "a@mail"⟩) 123456
        [(some "a@mail", PyVal.pstr "111111")]).2) :=
  ⟨by decide, by decide,
   issue_supersedes_previous_code [(some "a@mail", PyVal.pstr "111111")]
     (some "a@mail") (.pstr "222222") "alice" "send_otp" "888888" "999999"
     (some "a@mail") none none "111111" "222222" (.ok ())
     (some ⟨"u1", "alice@upi", "a@mail"⟩) 123456 (by decide) (by decide)⟩

/-- C6 counterexample: after a successful verification purges the entry, a
second verification with the same code does not yield a distinct `absent`
result — the code renders exactly the same invalid-OTP page it renders for
a mismatched code on a live challenge (and the response type has no absent
case at all). -/
theorem second_verify_not_absent_result :
    step_up_verify "alice" "verify_otp" (some "a@mail") (some "111111") none
        "" (.ok ()) (otpInsert [] (some "a@mail") (.pstr "111111"))
      = (.identityVerified "alice", []) ∧
    (step_up_verify "alice" "verify_otp" (some "a@mail") (some "111111") none
        "" (.ok ()) []).1
      = (step_up_verify "alice" "verify_otp" (some "a@mail") (some "222222")
          none "" (.ok ())
          (otpInsert [] (some "a@mail") (.pstr "111111"))).1 := by
  decide

/-- C6 (amended): after a verification returns the identity-verified page,
the entry for that key is purged and a second verification with the same
code fails — it renders the generic invalid-OTP page (the code does not
distinguish an absent challenge from a mismatched code); in particular no
code verifies successfully twice. -/
theorem verified_code_cannot_verify_again (u u2 : String)
    (email otp td td2 : Option String) (nc nc2 : String)
    (smtp smtp2 : Except String Unit) (s : OtpStore)
    (h : (step_up_verify u "verify_otp" email otp td nc smtp s).1
          = .identityVerified u) :
    otpLookup (step_up_verify u "verify_otp" email otp td nc smtp s).2 email
      = none ∧
    (step_up_verify u2 "verify_otp" email otp td2 nc2 smtp2
        (step_up_verify u "verify_otp" email otp td nc smtp s).2).1
      = .stepUpPage u2 true email td2
          (.error "Invalid OTP. Please try again.") := by
  rw [step_up_verify_verify_eq] at h
  cases hl : otpLookup s email with
  | none =>
      rw [hl] at h
      simp at h
  | some v =>
      rw [hl] at h
      by_cases he : pyEqOptStr v otp = true
      · have hsnd : (step_up_verify u "verify_otp" email otp td nc smtp s).2
            = otpErase s email := by
          rw [step_up_verify_verify_eq, hl]
          simp [he]
        rw [hsnd]
        refine ⟨otpLookup_erase_self s email, ?_⟩
        rw [step_up_verify_verify_eq, otpLookup_erase_self]
      · simp [he] at h

/-- Witness for C6 (amended) at a concrete single-entry store. -/
theorem verified_code_cannot_verify_again_witness :
    ((step_up_verify "alice" "verify_otp" (some "a@mail") (some "111111")
        none "" (.ok ()) [(some "a@mail", PyVal.pstr "111111")]).1
      = .identityVerified "alice") ∧
    (otpLookup (step_up_verify "alice" "verify_otp" (some "a@mail")
        (some "111111") none "" (.ok ())
        [(some "a@mail", PyVal.pstr "111111")]).2 (some "a@mail") = none ∧
    (step_up_verify "bob" "verify_otp" (some "a@mail") (some "111111") none
        "" (.error "late") (step_up_verify "alice" "verify_otp"
          (some "a@mail") (some "111111") none "" (.ok ())
          [(some "a@mail", PyVal.pstr "111111")]).2).1
      = .stepUpPage "bob" true (some "a@mail") none
          (.error "Invalid OTP. Please try again.")) :=
  ⟨by decide,
   verified_code_cannot_verify_again "alice" "bob" (some "a@mail")
     (some "111111") none none "" "" (.ok ()) (.error "late")
     [(some "a@mail", PyVal.pstr "111111")] (by decide)⟩

/-- C8 counterexample: on the legacy `POST /transaction/` path a
fraud-suspected submission sends the OTP email with no exception handler,
so an SMTP failure propagates out of the handler as an unhandled error —
after the challenge has been stored and the transaction committed. -/
theorem legacy_notifier_failure_crashes :
    (create_and_predict_transaction (some ⟨"u1", "alice@upi", "a@mail"⟩)
        50000 "P2P" "UPI" "bob@upi" ⟨none, none⟩ (.error "timeout")
        ⟨3, 23, 15, 1000⟩ "t1" true 123456 (.error "smtp down") []
        []).response = .error "smtp down" ∧
    (create_and_predict_transaction (some ⟨"u1", "alice@upi", "a@mail"⟩)
        50000 "P2P" "UPI" "bob@upi" ⟨none, none⟩ (.error "timeout")
        ⟨3, 23, 15, 1000⟩ "t1" true 123456 (.error "smtp down") []
        []).otps = [(some "alice@upi", .pint 123456)] ∧
    (create_and_predict_transaction (some ⟨"u1", "alice@upi", "a@mail"⟩)
        50000 "P2P" "UPI" "bob@upi" ⟨none, none⟩ (.error "timeout")
        ⟨3, 23, 15, 1000⟩ "t1" true 123456 (.error "smtp down") []
        []).txns.length = 1 := by
  refine ⟨rfl, rfl, rfl⟩

/-- C8 (amended): in the step-up endpoint a Notifier failure never escapes —
`send_otp_email` catches every exception and reports `False` — the caller
is shown a failure banner with the resend affordance, and the issued
challenge stays in the store (which keeps entries indefinitely, having no
expiry) regardless of the delivery outcome. -/
theorem stepup_notifier_failure_reported (u : String)
    (email td : Option String) (nc e : String) (s : OtpStore) :
    send_otp_email (.error e) = false ∧
    step_up_verify u "send_otp" email none td nc (.error e) s
      = (.stepUpPage u false email td
          (.error "Failed to send OTP. Please try again."),
         otpInsert s email (.pstr nc)) ∧
    otpLookup (step_up_verify u "send_otp" email none td nc (.error e) s).2
        email = some (.pstr nc) ∧
    step_up_verify u "resend_otp" email none td nc (.error e) s
      = (.stepUpPage u true email td (.success "Failed to resend OTP."),
         otpInsert s email (.pstr nc)) ∧
    otpLookup (step_up_verify u "resend_otp" email none td nc (.error e) s).2
        email = some (.pstr nc) := by
  refine ⟨rfl, rfl, ?_, rfl, ?_⟩
  · exact otpLookup_insert_self s email _
  · exact otpLookup_insert_self s email _

/-- C9: the step-up endpoint keys challenges solely by the caller-supplied
email form field: two requests that differ only in the authenticated user
leave the OTP store in identical states and render the same template with
the same data (only the echoed user differs), and the verify action
succeeds exactly when the store maps the supplied email to the supplied
code — independent of who is logged in. -/
theorem step_up_keyed_by_email_only (u1 u2 action : String)
    (email otp td : Option String) (nc : String) (smtp : Except String Unit)
    (s : OtpStore) :
    (step_up_verify u1 action email otp td nc smtp s).2
      = (step_up_verify u2 action email otp td nc smtp s).2 ∧
    stepUpKind (step_up_verify u1 action email otp td nc smtp s).1
      = stepUpKind (step_up_verify u2 action email otp td nc smtp s).1 ∧
    ((step_up_verify u1 "verify_otp" email otp td nc smtp s).1
        = .identityVerified u1
      ↔ ∃ v, otpLookup s email = some v ∧ pyEqOptStr v otp = true) := by
  refine ⟨?_, ?_, ?_⟩
  · unfold step_up_verify
    split_ifs <;> try rfl
    all_goals cases hl : otpLookup s email
    all_goals try rfl
    all_goals (dsimp only; split_ifs <;> rfl)
  · unfold step_up_verify
    split_ifs <;> try rfl
    all_goals cases hl : otpLookup s email
    all_goals try rfl
    all_goals (dsimp only; split_ifs <;> rfl)
  · rw [step_up_verify_verify_eq]
    cases hl : otpLookup s email with
    | none => simp
    | some v =>
        by_cases he : pyEqOptStr v otp = true
        · simp [he]
        · simp [he]

/-- C10: the delete endpoint performs no ownership check — its result and
the final table are the same for any two authenticated callers, and any
transaction whose id is present is deleted with a success message no matter
whom it belongs to. -/
theorem delete_transaction_ignores_caller (txns : TxnStore)
    (tid u1 u2 : String) (t : Transaction) (ht : t ∈ txns)
    (hid : t.transaction_id = tid) :
    delete_transaction tid u1 txns = delete_transaction tid u2 txns ∧
    delete_transaction tid u1 txns
      = (.deleted, txns.filter (fun x => x.transaction_id ≠ tid)) := by
  refine ⟨rfl, ?_⟩
  unfold delete_transaction
  cases hf : txns.find? (fun x => x.transaction_id = tid) with
  | none =>
      exfalso
      have := List.find?_eq_none.mp hf t ht
      simp [hid] at this
  | some _ => rfl

/-- Witness for C10: a store holding a transaction owned by user u1, deleted
by a different caller. -/
theorem delete_transaction_ignores_caller_witness :
    (buildTxn ⟨"u1", "alice@upi", "a@mail"⟩ 50000 "P2P" "UPI" "bob@upi"
        (calculate_derived_columns ⟨none, none⟩ (.error "timeout"))
        ⟨3, 23, 15, 1000⟩ "t1"
      ∈ [buildTxn ⟨"u1", "alice@upi", "a@mail"⟩ 50000 "P2P" "UPI" "bob@upi"
          (calculate_derived_columns ⟨none, none⟩ (.error "timeout"))
          ⟨3, 23, 15, 1000⟩ "t1"]) ∧
    ((buildTxn ⟨"u1", "alice@upi", "a@mail"⟩ 50000 "P2P" "UPI" "bob@upi"
        (calculate_derived_columns ⟨none, none⟩ (.error "timeout"))
        ⟨3, 23, 15, 1000⟩ "t1").transaction_id = "t1") ∧
    (delete_transaction "t1" "mallory"
        [buildTxn ⟨"u1", "alice@upi", "a@mail"⟩ 50000 "P2P" "UPI" "bob@upi"
          (calculate_derived_columns ⟨none, none⟩ (.error "timeout"))
          ⟨3, 23, 15, 1000⟩ "t1"]
      = delete_transaction "t1" "alice"
        [buildTxn ⟨"u1", "alice@upi", "a@mail"⟩ 50000 "P2P" "UPI" "bob@upi"
          (calculate_derived_columns ⟨none, none⟩ (.error "timeout"))
          ⟨3, 23, 15, 1000⟩ "t1"] ∧
    delete_transaction "t1" "mallory"
        [buildTxn ⟨"u1", "alice@upi", "a@mail"⟩ 50000 "P2P" "UPI" "bob@upi"
          (calculate_derived_columns ⟨none, none⟩ (.error "timeout"))
          ⟨3, 23, 15, 1000⟩ "t1"]
      = (.deleted,
         [buildTxn ⟨"u1", "alice@upi", "a@mail"⟩ 50000 "P2P" "UPI" "bob@upi"
            (calculate_derived_columns ⟨none, none⟩ (.error "timeout"))
            ⟨3, 23, 15, 1000⟩ "t1"].filter
           (fun x => x.transaction_id ≠ "t1"))) :=
  ⟨by decide, by decide,
   delete_transaction_ignores_caller
     [buildTxn ⟨"u1", "alice@upi", "a@mail"⟩ 50000 "P2P" "UPI" "bob@upi"
        (calculate_derived_columns ⟨none, none⟩ (.error "timeout"))
        ⟨3, 23, 15, 1000⟩ "t1"] "t1" "mallory" "alice"
     (buildTxn ⟨"u1", "alice@upi", "a@mail"⟩ 50000 "P2P" "UPI" "bob@upi"
        (calculate_derived_columns ⟨none, none⟩ (.error "timeout"))
        ⟨3, 23, 15, 1000⟩ "t1") (by decide) (by decide)⟩

end Cipherstorm
